import Mathlib

/-
  Shallow embedding of pg_xlog_analyzer (src/xlog_analyzer.py), the record
  classification and statistics aggregation engine.  Lines are modelled as
  lists of characters, Python dictionaries as association lists, Python
  integers as Int, and the fatal ZeroDivisionError as an Except error value.
-/

set_option maxRecDepth 8000

/-- Fatal arithmetic failures of the Python code, plus the distinct
EmptyInputSet failure named by the specification (which the code never
raises). -/
inductive PyErr where
  | zeroDivisionError : PyErr
  | emptyInputSet : PyErr
deriving DecidableEq

/-- Mapping from page identifier (a decimal string, kept as a character
list) to its occurrence count; models the inner Python dict. -/
abbrev PageMap := List (List Char × Int)

/-- Mapping from relation identifier to its PageMap; models the
relations dict of xlog_stats. -/
abbrev RelMap := List (List Char × PageMap)

/-- Dictionary lookup on an association list, mirroring the Python
membership test and subscript read. -/
def lookupA {κ α : Type} [DecidableEq κ] : List (κ × α) → κ → Option α
  | [], _ => none
  | (k0, v) :: rest, k => if k0 = k then some v else lookupA rest k

/-- Dictionary write on an association list, mirroring Python
subscript assignment: replaces the binding if present, appends otherwise. -/
def setA {κ α : Type} [DecidableEq κ] : List (κ × α) → κ → α → List (κ × α)
  | [], k, v => [(k, v)]
  | (k0, v0) :: rest, k, v =>
      if k0 = k then (k, v) :: rest else (k0, v0) :: setA rest k v

/-- The xlog_stats dictionary of init_xlog_stats, as a structure; field
names follow the keys of the source dict. -/
structure XlogStats where
  count : Int
  n_heap : Int
  n_heap2 : Int
  n_btree : Int
  n_transaction : Int
  n_other : Int
  n_relation : Int
  n_page : Int
  n_distinct_relation : Int
  n_distinct_page : Int
  n_bkp : Int
  n_avg_page_per_relation : Int
  n_avg_page_per_transaction : Int
  n_insert : Int
  n_update : Int
  n_hotupdate : Int
  n_delete : Int
  n_commit : Int
  n_abort : Int
  relations : RelMap

/-- init_xlog_stats: every counter starts at zero and the relations dict
starts empty. -/
def init_xlog_stats : XlogStats :=
  { count := 0, n_heap := 0, n_heap2 := 0, n_btree := 0, n_transaction := 0,
    n_other := 0, n_relation := 0, n_page := 0, n_distinct_relation := 0,
    n_distinct_page := 0, n_bkp := 0, n_avg_page_per_relation := 0,
    n_avg_page_per_transaction := 0, n_insert := 0, n_update := 0,
    n_hotupdate := 0, n_delete := 0, n_commit := 0, n_abort := 0,
    relations := [] }

/-- Substring search, mirroring re.search of a plain literal pattern:
true iff the pattern occurs anywhere in the line. -/
def hasSubstr (l pat : List Char) : Bool :=
  match l with
  | [] => pat.isEmpty
  | c :: rest => List.isPrefixOf pat (c :: rest) || hasSubstr rest pat

/-- Test for the character class [0-9] of the source regexes. -/
def isDigit09 (c : Char) : Bool :=
  decide (48 ≤ c.toNat) && decide (c.toNat ≤ 57)

/-- Splits a maximal (possibly empty) run of [0-9] characters off the
front, mirroring a greedy [0-9]* group. -/
def digitRun : List Char → List Char × List Char
  | [] => ([], [])
  | c :: rest =>
      if isDigit09 c then
        let dr := digitRun rest
        (c :: dr.1, dr.2)
      else ([], c :: rest)

/-- Rightmost occurrence of the literal tid-space token, returning the
greedy digit group that follows it; models the tail of re_page where the
greedy dot-star before tid selects the last occurrence. -/
def lastTid : List Char → Option (List Char)
  | [] => none
  | c :: rest =>
      match lastTid rest with
      | some g => some g
      | none =>
          if List.isPrefixOf [ 't', 'i', 'd', ' '] (c :: rest) then
            some (digitRun (List.drop 4 (c :: rest))).1
          else none

/-- Matches the remainder of re_page after the rel-space token:
digits, slash, digits, slash, the captured relation digits, then a later
tid token with its captured page digits. -/
def parseAfterRel (t : List Char) : Option (List Char × List Char) :=
  match (digitRun t).2 with
  | '/' :: r2 =>
      match (digitRun r2).2 with
      | '/' :: r4 =>
          let g1 := (digitRun r4).1
          let r5 := (digitRun r4).2
          match lastTid r5 with
          | some g2 => some (g1, g2)
          | none => none
      | _ => none
  | _ => none

/-- Models re_page matched against a suffix of the line: the greedy
leading dot-star selects the rightmost rel-space occurrence whose
remainder completes the pattern; returns (relation, page) capture groups. -/
def findPageRef : List Char → Option (List Char × List Char)
  | [] => none
  | c :: rest =>
      match findPageRef rest with
      | some g => some g
      | none =>
          if List.isPrefixOf [ 'r', 'e', 'l', ' '] (c :: rest) then
            parseAfterRel (List.drop 4 (c :: rest))
          else none

/-- Reads the four single-digit capture groups of re_bkp. -/
def bkpDigits : List Char → Option (Char × Char × Char × Char)
  | a :: b :: c :: d :: _ =>
      if isDigit09 a && isDigit09 b && isDigit09 c && isDigit09 d then
        some (a, b, c, d)
      else none
  | _ => none

/-- Models re_bkp matched against a suffix of the line: rightmost
occurrence of the bkp marker followed by four digits. -/
def findBkp : List Char → Option (Char × Char × Char × Char)
  | [] => none
  | c :: rest =>
      match findBkp rest with
      | some g => some g
      | none =>
          if List.isPrefixOf [ 'b', 'k', 'p', ':', ' '] (c :: rest) then
            bkpDigits (List.drop 5 (c :: rest))
          else none

/-- The unconditional count increment and the ten independent
re.search based kind and operation counters of the line loop. -/
def classifyCounts (st : XlogStats) (l : List Char) : XlogStats :=
  { st with
    count := st.count + 1,
    n_heap := st.n_heap + (if hasSubstr l (" Heap ").data then 1 else 0),
    n_heap2 := st.n_heap2 + (if hasSubstr l (" Heap2").data then 1 else 0),
    n_btree := st.n_btree + (if hasSubstr l (" Btree").data then 1 else 0),
    n_transaction :=
      st.n_transaction + (if hasSubstr l (" Transaction").data then 1 else 0),
    n_insert := st.n_insert + (if hasSubstr l (" insert").data then 1 else 0),
    n_update := st.n_update + (if hasSubstr l (" update").data then 1 else 0),
    n_hotupdate :=
      st.n_hotupdate + (if hasSubstr l (" hotupdate").data then 1 else 0),
    n_delete := st.n_delete + (if hasSubstr l (" delete").data then 1 else 0),
    n_commit := st.n_commit + (if hasSubstr l (" commit").data then 1 else 0),
    n_abort := st.n_abort + (if hasSubstr l (" abort").data then 1 else 0) }

/-- The rel_match branch of the line loop: bump the total relation and
page counters, insert a fresh relation or page entry when new (bumping the
distinct counters), and increment the pair occurrence count. -/
def applyPageRef (st : XlogStats) : Option (List Char × List Char) → XlogStats
  | none => st
  | some (r, p) =>
      let rels0 := st.relations
      let isNewR := (lookupA rels0 r).isNone
      let rels1 := if isNewR then setA rels0 r ([] : PageMap) else rels0
      let pm0 := (lookupA rels1 r).getD []
      let isNewP := (lookupA pm0 p).isNone
      let pm1 := if isNewP then setA pm0 p 0 else pm0
      let pm2 := setA pm1 p ((lookupA pm1 p).getD 0 + 1)
      { st with
        n_relation := st.n_relation + 1,
        n_page := st.n_page + 1,
        n_distinct_relation :=
          st.n_distinct_relation + (if isNewR then 1 else 0),
        n_distinct_page := st.n_distinct_page + (if isNewP then 1 else 0),
        relations := setA rels1 r pm2 }

/-- Contribution of one backup flag digit: one when the group equals the
character 1, zero otherwise. -/
def bitOf (c : Char) : Int :=
  if c = '1' then 1 else 0

/-- The bkp_match branch of the line loop: one increment of n_bkp per set
bit among the four captured digits. -/
def applyBkp (st : XlogStats) : Option (Char × Char × Char × Char) → XlogStats
  | none => st
  | some (a, b, c, d) =>
      { st with n_bkp := st.n_bkp + bitOf a + bitOf b + bitOf c + bitOf d }

/-- One iteration of the line loop of parse_xlogdump_output.  The source
calls re_page.match(line, re.M|re.I) and re_bkp.match(line, re.M|re.I):
the flag value 10 is received as the pos argument, so both patterns are
matched only from character index 10 onward, which the drop 10 reflects. -/
def ingestLine (st : XlogStats) (l : List Char) : XlogStats :=
  applyBkp
    (applyPageRef (classifyCounts st l) (findPageRef (List.drop 10 l)))
    (findBkp (List.drop 10 l))

/-- Splitting on the newline character, mirroring the Python split
method: separators delimit fields, so a trailing newline yields a final
empty line and the empty text yields one empty line. -/
def splitNl : List Char → List (List Char)
  | [] => [[]]
  | c :: rest =>
      let r := splitNl rest
      if c = '\n' then [] :: r
      else
        match r with
        | h :: t => (c :: h) :: t
        | [] => [[c]]

/-- The full line loop of parse_xlogdump_output over a list of lines. -/
def ingest_lines (st : XlogStats) (ls : List (List Char)) : XlogStats :=
  ls.foldl ingestLine st

/-- The epilogue of parse_xlogdump_output: derive n_other, then, when the
distinct relation count is nonzero, compute both averages with Python
floor division; the second division raises ZeroDivisionError when the
transaction count is zero, because the guard only tests the distinct
relation count. -/
def finalizeStats (s : XlogStats) : Except PyErr XlogStats :=
  let t := { s with
    n_other := s.count - (s.n_heap + s.n_heap2 + s.n_btree + s.n_transaction) }
  if t.n_distinct_relation = 0 then Except.ok t
  else if t.n_transaction = 0 then Except.error PyErr.zeroDivisionError
  else
    Except.ok { t with
      n_avg_page_per_relation :=
        Int.fdiv t.n_distinct_page t.n_distinct_relation,
      n_avg_page_per_transaction := Int.fdiv t.n_page t.n_transaction }

/-- parse_xlogdump_output on a fresh xlog_stats: split the output text on
newlines, run the line loop, then run the epilogue. -/
def parse_xlogdump_output (output : String) : Except PyErr XlogStats :=
  finalizeStats (ingest_lines init_xlog_stats (splitNl output.data))

/-- The successful parse result of an output text, defaulting to the
initial statistics when the parse fails; used to name concrete parse
results in closed statements. -/
def statsOf (output : String) : XlogStats :=
  match parse_xlogdump_output output with
  | Except.ok s => s
  | Except.error _ => init_xlog_stats

/-- Python dict.update semantics for the relations dict in the summary
merge loop of main: each relation binding of the source replaces the
binding of the target wholesale. -/
def dictUpdate (target src : RelMap) : RelMap :=
  src.foldl (fun t kv => setA t kv.1 kv.2) target

/-- The summary merge loop of main: every scalar entry of the input is
added to the overall entry, and the relations dict entry is merged with
dict.update. -/
def mergeStats (overall inp : XlogStats) : XlogStats :=
  { count := overall.count + inp.count,
    n_heap := overall.n_heap + inp.n_heap,
    n_heap2 := overall.n_heap2 + inp.n_heap2,
    n_btree := overall.n_btree + inp.n_btree,
    n_transaction := overall.n_transaction + inp.n_transaction,
    n_other := overall.n_other + inp.n_other,
    n_relation := overall.n_relation + inp.n_relation,
    n_page := overall.n_page + inp.n_page,
    n_distinct_relation :=
      overall.n_distinct_relation + inp.n_distinct_relation,
    n_distinct_page := overall.n_distinct_page + inp.n_distinct_page,
    n_bkp := overall.n_bkp + inp.n_bkp,
    n_avg_page_per_relation :=
      overall.n_avg_page_per_relation + inp.n_avg_page_per_relation,
    n_avg_page_per_transaction :=
      overall.n_avg_page_per_transaction + inp.n_avg_page_per_transaction,
    n_insert := overall.n_insert + inp.n_insert,
    n_update := overall.n_update + inp.n_update,
    n_hotupdate := overall.n_hotupdate + inp.n_hotupdate,
    n_delete := overall.n_delete + inp.n_delete,
    n_commit := overall.n_commit + inp.n_commit,
    n_abort := overall.n_abort + inp.n_abort,
    relations := dictUpdate overall.relations inp.relations }

/-- The summary reweight step of main: divide the two accumulated average
fields by the number of input segments, raising ZeroDivisionError when
that number is zero (the code performs the division unconditionally). -/
def reweight (st : XlogStats) (inputCount : Int) : Except PyErr XlogStats :=
  if inputCount = 0 then Except.error PyErr.zeroDivisionError
  else
    Except.ok { st with
      n_avg_page_per_relation :=
        Int.fdiv st.n_avg_page_per_relation inputCount,
      n_avg_page_per_transaction :=
        Int.fdiv st.n_avg_page_per_transaction inputCount }

/-- Stable insertion keeping the descending order by number of distinct
pages, mirroring the reverse sorted call of print_top_n_relations. -/
def insertByLenDesc (x : List Char × PageMap) :
    List (List Char × PageMap) → List (List Char × PageMap)
  | [] => [x]
  | y :: ys =>
      if x.2.length < y.2.length then y :: insertByLenDesc x ys
      else x :: y :: ys

/-- The sorted call of print_top_n_relations: relations ordered by
distinct page count, descending, stable. -/
def sortRelationsByPages (m : RelMap) : List (List Char × PageMap) :=
  m.foldr insertByLenDesc []

/-- The sequence of entries printed by print_top_n_relations: the loop
breaks only once the running index exceeds n, so indices 0 through n are
emitted, that is up to n plus one entries. -/
def print_top_n_relations (relations : RelMap) (n : Int) :
    List (List Char × PageMap) :=
  (sortRelationsByPages relations).take (n + 1).toNat

/-- Follows the words of the specification, for comparison with the code:
union-with-sum merge of two relation maps, adding page occurrence counts
for pairs present on both sides. -/
def specMergeRelations (a b : RelMap) : RelMap :=
  b.foldl
    (fun acc kv =>
      setA acc kv.1
        (kv.2.foldl
          (fun pm pv => setA pm pv.1 ((lookupA pm pv.1).getD 0 + pv.2))
          ((lookupA acc kv.1).getD [])))
    a

/-- Number of distinct pages recorded in a relation map: the sum of the
sizes of the page maps. -/
def distinctPagesOf (m : RelMap) : Int :=
  m.foldl (fun acc kv => acc + (kv.2.length : Int)) 0

/-- Follows the words of the specification, for comparison with the code:
the pages-per-relation average recomputed from the merged distinct page
and relation totals. -/
def specAvgPagePerRelation (m : RelMap) : Int :=
  Int.fdiv (distinctPagesOf m) (m.length : Int)

/-- The scenario text of the specification for the parse scenario claim. -/
def C3text : String :=
  "... Heap ... rel 1/2/100 ... tid 5 ...\n... Heap ... rel 1/2/100 ... tid 5 ...\n... Btree ...\n"

/-- The statistics accumulated by the line loop on the scenario text,
before the finalize epilogue runs. -/
def C3stats : XlogStats :=
  ingest_lines init_xlog_stats (splitNl C3text.data)

/-- A single line matching all four record kind patterns at once, making
the derived n_other negative. -/
def C4negText : String := " Heap Heap2 Btree Transaction"

/-- A single line carrying a page reference placed past character index
ten, with no transaction record on any line. -/
def C5line : List Char := ("aaaaaaaaaaa rel 1/2/3 tid 4").data

/-- First single-line input for the merge order experiment: relation 100,
page 1. -/
def C6textA : String := "x Transaction rel 1/2/100 x tid 1 x"

/-- Second single-line input for the merge order experiment: relation 100,
page 2. -/
def C6textB : String := "x Transaction rel 1/2/100 x tid 2 x"

/-- First rollup input: relation 100 with pages 1 to 4, so its
pages-per-relation average is 4. -/
def C7textA : String :=
  "x Transaction rel 1/2/100 x tid 1 x\nx Transaction rel 1/2/100 x tid 2 x\nx Transaction rel 1/2/100 x tid 3 x\nx Transaction rel 1/2/100 x tid 4 x"

/-- Second rollup input: relation 100 with pages 3 to 6, so its
pages-per-relation average is also 4. -/
def C7textB : String :=
  "x Transaction rel 1/2/100 x tid 3 x\nx Transaction rel 1/2/100 x tid 4 x\nx Transaction rel 1/2/100 x tid 5 x\nx Transaction rel 1/2/100 x tid 6 x"

/-- The overall summary statistics the code produces for the two rollup
inputs: merge both, then reweight by the input count two. -/
def C7overall : XlogStats :=
  match
    reweight
      (mergeStats (mergeStats init_xlog_stats (statsOf C7textA))
        (statsOf C7textB)) 2
  with
  | Except.ok s => s
  | Except.error _ => init_xlog_stats

/-- Looking up the key just written always finds the value just written. -/
theorem lookupA_setA_self {κ α : Type} [DecidableEq κ]
    (m : List (κ × α)) (k : κ) (v : α) :
    lookupA (setA m k v) k = some v := by
  induction m with
  | nil => simp [setA, lookupA]
  | cons hd tl ih =>
      obtain ⟨k0, v0⟩ := hd
      by_cases h : k0 = k
      · simp [setA, lookupA, h]
      · simp [setA, lookupA, h, ih]

/-- The backup branch only touches the backup counter. -/
theorem applyBkp_fields (st : XlogStats)
    (o : Option (Char × Char × Char × Char)) :
    (applyBkp st o).relations = st.relations
    ∧ (applyBkp st o).n_distinct_relation = st.n_distinct_relation
    ∧ (applyBkp st o).n_distinct_page = st.n_distinct_page
    ∧ (applyBkp st o).n_relation = st.n_relation
    ∧ (applyBkp st o).n_page = st.n_page
    ∧ (applyBkp st o).n_other = st.n_other := by
  cases o with
  | none => exact ⟨rfl, rfl, rfl, rfl, rfl, rfl⟩
  | some g =>
      obtain ⟨a, b, c, d⟩ := g
      exact ⟨rfl, rfl, rfl, rfl, rfl, rfl⟩

/-- The kind and operation counters leave the relation data and the
derived fields untouched. -/
theorem classifyCounts_fields (st : XlogStats) (l : List Char) :
    (classifyCounts st l).relations = st.relations
    ∧ (classifyCounts st l).n_distinct_relation = st.n_distinct_relation
    ∧ (classifyCounts st l).n_distinct_page = st.n_distinct_page
    ∧ (classifyCounts st l).n_relation = st.n_relation
    ∧ (classifyCounts st l).n_page = st.n_page
    ∧ (classifyCounts st l).n_other = st.n_other :=
  ⟨rfl, rfl, rfl, rfl, rfl, rfl⟩

/-- Effect of the relation branch on a matched line: distinct counters
grow exactly on first sight, the pair occurrence count always grows by
one, and the total counters grow by one. -/
theorem applyPageRef_some (st : XlogStats) (r p : List Char) :
    (applyPageRef st (some (r, p))).n_distinct_relation
      = st.n_distinct_relation
        + (if lookupA st.relations r = none then 1 else 0)
    ∧ (applyPageRef st (some (r, p))).n_distinct_page
      = st.n_distinct_page
        + (if lookupA ((lookupA st.relations r).getD []) p = none then 1
           else 0)
    ∧ (lookupA ((lookupA (applyPageRef st (some (r, p))).relations r).getD [])
         p).getD 0
      = (lookupA ((lookupA st.relations r).getD []) p).getD 0 + 1
    ∧ (applyPageRef st (some (r, p))).n_relation = st.n_relation + 1
    ∧ (applyPageRef st (some (r, p))).n_page = st.n_page + 1
    ∧ (applyPageRef st (some (r, p))).n_other = st.n_other := by
  cases hrel : lookupA st.relations r with
  | none =>
      simp [applyPageRef, hrel, lookupA_setA_self, lookupA, Option.isNone]
  | some pm0 =>
      cases hp : lookupA pm0 p with
      | none =>
          simp [applyPageRef, hrel, hp, lookupA_setA_self, Option.isNone]
      | some c =>
          simp [applyPageRef, hrel, hp, lookupA_setA_self, Option.isNone]

/-- One line moves the total relation counter and the total page counter
by the same amount. -/
theorem ingestLine_rel_page_diff (s : XlogStats) (l : List Char) :
    (ingestLine s l).n_relation - s.n_relation
      = (ingestLine s l).n_page - s.n_page := by
  unfold ingestLine
  obtain ⟨-, -, -, h4, h5, -⟩ :=
    applyBkp_fields
      (applyPageRef (classifyCounts s l) (findPageRef (List.drop 10 l)))
      (findBkp (List.drop 10 l))
  rw [h4, h5]
  cases hpr : findPageRef (List.drop 10 l) with
  | none => simp [applyPageRef, classifyCounts]
  | some rp =>
      obtain ⟨r, p⟩ := rp
      obtain ⟨-, -, -, g4, g5, -⟩ := applyPageRef_some (classifyCounts s l) r p
      rw [g4, g5]
      obtain ⟨-, -, -, c4, c5, -⟩ := classifyCounts_fields s l
      rw [c4, c5]
      omega

/-- The whole line loop preserves the difference of the total relation
counter and the total page counter. -/
theorem ingest_lines_rel_page_diff (ls : List (List Char)) (s : XlogStats) :
    (ingest_lines s ls).n_relation - (ingest_lines s ls).n_page
      = s.n_relation - s.n_page := by
  induction ls generalizing s with
  | nil => rfl
  | cons a t ih =>
      have h1 : ingest_lines s (a :: t) = ingest_lines (ingestLine s a) t :=
        rfl
      have h2 := ingestLine_rel_page_diff s a
      rw [h1, ih (ingestLine s a)]
      omega

/-- A successful finalize keeps every raw counter and derives n_other
from the count and the four tracked kind counters. -/
theorem finalizeStats_ok_fields (s t : XlogStats)
    (h : finalizeStats s = Except.ok t) :
    t.n_relation = s.n_relation ∧ t.n_page = s.n_page
    ∧ t.count = s.count ∧ t.n_heap = s.n_heap ∧ t.n_heap2 = s.n_heap2
    ∧ t.n_btree = s.n_btree ∧ t.n_transaction = s.n_transaction
    ∧ t.n_other
        = s.count - (s.n_heap + s.n_heap2 + s.n_btree + s.n_transaction) := by
  simp only [finalizeStats] at h
  split at h
  · injection h with h
    subst h
    exact ⟨rfl, rfl, rfl, rfl, rfl, rfl, rfl, rfl⟩
  · split at h
    · exact Except.noConfusion h
    · injection h with h
      subst h
      exact ⟨rfl, rfl, rfl, rfl, rfl, rfl, rfl, rfl⟩

/-- The line loop never writes the derived n_other field. -/
theorem ingestLine_n_other (s : XlogStats) (l : List Char) :
    (ingestLine s l).n_other = s.n_other := by
  unfold ingestLine
  obtain ⟨-, -, -, -, -, h6⟩ :=
    applyBkp_fields
      (applyPageRef (classifyCounts s l) (findPageRef (List.drop 10 l)))
      (findBkp (List.drop 10 l))
  rw [h6]
  cases hpr : findPageRef (List.drop 10 l) with
  | none => simp [applyPageRef, classifyCounts]
  | some rp =>
      obtain ⟨r, p⟩ := rp
      obtain ⟨-, -, -, -, -, g6⟩ := applyPageRef_some (classifyCounts s l) r p
      rw [g6]
      exact (classifyCounts_fields s l).2.2.2.2.2

/-- Claim C1 (refuted; code bug): the claim states that computing the two
averaged metrics during finalize never raises a fatal division-by-zero
failure, in particular when the distinct-relation count is positive but
the transaction-record count is zero.  On an input whose single line
carries a page reference and no transaction record, the code divides the
page total by the zero transaction count and raises ZeroDivisionError,
because the guard only tests the distinct-relation count.  When the
distinct-relation count is zero both averages do stay zero. -/
theorem C1_division_guard_missing :
    parse_xlogdump_output "aaaaaaaaaaa rel 1/2/3 tid 4"
      = Except.error PyErr.zeroDivisionError
    ∧ parse_xlogdump_output "" = Except.ok (statsOf "")
    ∧ (statsOf "").n_distinct_relation = 0
    ∧ (statsOf "").n_avg_page_per_relation = 0
    ∧ (statsOf "").n_avg_page_per_transaction = 0 :=
  ⟨rfl, rfl, rfl, rfl, rfl⟩

/-- Claim C2 (refuted; code bug): the claim states that the single-line
input with the bkp marker and digits 1011 increments the backup counter
by 3.  The code passes the regex flags as the pos argument of match, so
re_bkp is only matched from character index 10 onward; on the claimed
line the marker starts at index 4 and the counter stays 0.  A line whose
marker lies past index 10 does get the three increments. -/
theorem C2_bkp_position_bug :
    (ingestLine init_xlog_stats ("... bkp: 1011 ...").data).n_bkp = 0
    ∧ (ingestLine init_xlog_stats ("aaaaaaaaaa bkp: 1011 aaa").data).n_bkp
        = 3 :=
  ⟨rfl, rfl⟩

/-- Claim C3, counterexample: on the scenario text the line loop counts 4
lines, not 3 (the trailing newline yields a counted empty line), and
parse_xlogdump_output raises ZeroDivisionError instead of yielding a
statistics structure, because the text has a page reference but no
transaction record. -/
theorem C3_scenario_counterexample :
    C3stats.count = 4
    ∧ parse_xlogdump_output C3text = Except.error PyErr.zeroDivisionError :=
  ⟨rfl, rfl⟩

/-- Claim C3 as amended: ingesting the scenario text yields count=4 (the
trailing empty line produced by splitting on newlines is counted),
n_heap=2, n_btree=1, n_relation=2, n_page=2, n_distinct_relation=1,
n_distinct_page=1, and the relation-page map sends relation 100 to the
map sending page 5 to 2; the finalize step then fails with a
division-by-zero because the transaction-record count is zero. -/
theorem C3_scenario_amended :
    C3stats.count = 4
    ∧ C3stats.n_heap = 2
    ∧ C3stats.n_btree = 1
    ∧ C3stats.n_relation = 2
    ∧ C3stats.n_page = 2
    ∧ C3stats.n_distinct_relation = 1
    ∧ C3stats.n_distinct_page = 1
    ∧ lookupA C3stats.relations ("100").data = some [(("5").data, 2)]
    ∧ parse_xlogdump_output C3text = Except.error PyErr.zeroDivisionError :=
  ⟨rfl, rfl, rfl, rfl, rfl, rfl, rfl, rfl, rfl⟩

/-- Claim C4 (confirmed): whenever parse_xlogdump_output completes, the
result satisfies n_other = count - (n_heap + n_heap2 + n_btree +
n_transaction); the line loop never writes n_other, so the field is only
ever derived; and the right-hand side can indeed be negative, as on a
single line matching all four kind patterns, where n_other is -3. -/
theorem C4_n_other_invariant :
    (∀ (output : String) (t : XlogStats),
        parse_xlogdump_output output = Except.ok t →
        t.n_other
          = t.count - (t.n_heap + t.n_heap2 + t.n_btree + t.n_transaction))
    ∧ (∀ (s : XlogStats) (l : List Char),
        (ingestLine s l).n_other = s.n_other)
    ∧ parse_xlogdump_output C4negText = Except.ok (statsOf C4negText)
    ∧ (statsOf C4negText).n_other = -3 := by
  refine ⟨?_, ingestLine_n_other, rfl, rfl⟩
  intro output t h
  unfold parse_xlogdump_output at h
  obtain ⟨-, -, hc, hh, hh2, hb, ht, ho⟩ := finalizeStats_ok_fields _ t h
  rw [ho, hc, hh, hh2, hb, ht]

/-- Witness for claim C4 at the empty output text, whose parse
succeeds. -/
theorem C4_n_other_invariant_witness :
    (statsOf "").n_other
      = (statsOf "").count
        - ((statsOf "").n_heap + (statsOf "").n_heap2 + (statsOf "").n_btree
           + (statsOf "").n_transaction) :=
  C4_n_other_invariant.1 "" (statsOf "") rfl

/-- Claim C5 (confirmed): on a line carrying a page reference, the
distinct-relation counter grows by one exactly when the relation is new
to the map and by zero otherwise, the distinct-page counter grows by one
exactly when the (relation, page) pair is new and by zero otherwise, and
the occurrence count of the pair grows by one on every observation. -/
theorem C5_distinct_counters (s : XlogStats) (l r p : List Char)
    (h : findPageRef (List.drop 10 l) = some (r, p)) :
    (ingestLine s l).n_distinct_relation
      = s.n_distinct_relation
        + (if lookupA s.relations r = none then 1 else 0)
    ∧ (ingestLine s l).n_distinct_page
      = s.n_distinct_page
        + (if lookupA ((lookupA s.relations r).getD []) p = none then 1
           else 0)
    ∧ (lookupA ((lookupA (ingestLine s l).relations r).getD []) p).getD 0
      = (lookupA ((lookupA s.relations r).getD []) p).getD 0 + 1 := by
  unfold ingestLine
  rw [h]
  obtain ⟨b1, b2, b3, -, -, -⟩ :=
    applyBkp_fields (applyPageRef (classifyCounts s l) (some (r, p)))
      (findBkp (List.drop 10 l))
  obtain ⟨p1, p2, p3, -, -, -⟩ := applyPageRef_some (classifyCounts s l) r p
  obtain ⟨c1, c2, c3, -, -, -⟩ := classifyCounts_fields s l
  refine ⟨?_, ?_, ?_⟩
  · rw [b2, p1, c2, c1]
  · rw [b3, p2, c3, c1]
  · rw [b1, p3, c1]

/-- Witness for claim C5: a concrete line whose page reference sits past
character index ten, ingested into the initial statistics. -/
theorem C5_distinct_counters_witness :
    (ingestLine init_xlog_stats C5line).n_distinct_relation
      = init_xlog_stats.n_distinct_relation
        + (if lookupA init_xlog_stats.relations ("3").data = none then 1
           else 0)
    ∧ (ingestLine init_xlog_stats C5line).n_distinct_page
      = init_xlog_stats.n_distinct_page
        + (if lookupA
              ((lookupA init_xlog_stats.relations ("3").data).getD [])
              ("4").data = none then 1
           else 0)
    ∧ (lookupA
         ((lookupA (ingestLine init_xlog_stats C5line).relations
            ("3").data).getD [])
         ("4").data).getD 0
      = (lookupA
           ((lookupA init_xlog_stats.relations ("3").data).getD [])
           ("4").data).getD 0 + 1 :=
  C5_distinct_counters init_xlog_stats C5line ("3").data ("4").data rfl

/-- Claim C6 (refuted; code bug): the claim states that merging two
per-input statistics into a fresh overall structure is commutative on the
relation-page map.  The merge loop of main uses dict.update on the
relations dict, which replaces the page map of an overlapping relation
wholesale, so the merged map depends on the merge order: with two inputs
both touching relation 100 (pages 1 and 2 respectively), the two orders
disagree on the page map stored under relation 100. -/
theorem C6_merge_not_commutative :
    parse_xlogdump_output C6textA = Except.ok (statsOf C6textA)
    ∧ parse_xlogdump_output C6textB = Except.ok (statsOf C6textB)
    ∧ lookupA
        (mergeStats (mergeStats init_xlog_stats (statsOf C6textA))
          (statsOf C6textB)).relations ("100").data
      ≠ lookupA
          (mergeStats (mergeStats init_xlog_stats (statsOf C6textB))
            (statsOf C6textA)).relations ("100").data := by
  refine ⟨rfl, rfl, ?_⟩
  decide

/-- Claim C7 (refuted; code bug): the claim states that the overall
pages-per-relation average of a rollup equals the value recomputed from
the merged distinct totals, not the sum of the per-input averages divided
by the input count.  On two inputs with averages 4 and 4 sharing their
one relation, the code produces (4+4)/2 = 4, while recomputing from the
union-with-sum merged map (6 distinct pages over 1 relation) gives 6. -/
theorem C7_rollup_average_bug :
    (statsOf C7textA).n_avg_page_per_relation = 4
    ∧ (statsOf C7textB).n_avg_page_per_relation = 4
    ∧ reweight
        (mergeStats (mergeStats init_xlog_stats (statsOf C7textA))
          (statsOf C7textB)) 2 = Except.ok C7overall
    ∧ C7overall.n_avg_page_per_relation = 4
    ∧ specAvgPagePerRelation
        (specMergeRelations (statsOf C7textA).relations
          (statsOf C7textB).relations) = 6 :=
  ⟨rfl, rfl, rfl, rfl, rfl⟩

/-- Claim C8 (refuted; code bug): the claim states that the reweight step
invoked with an input count of zero fails with the distinct EmptyInputSet
error before any division.  The code performs the division
unconditionally and raises the raw ZeroDivisionError, which is a
different error value from EmptyInputSet; no EmptyInputSet check exists
anywhere in the code. -/
theorem C8_reweight_zero_raw_failure :
    (∀ s : XlogStats, reweight s 0 = Except.error PyErr.zeroDivisionError)
    ∧ PyErr.zeroDivisionError ≠ PyErr.emptyInputSet := by
  refine ⟨fun s => rfl, ?_⟩
  decide

/-- Claim C9 (refuted; code bug): the claim states that ranking returns
at most limit entries and that a limit of zero yields an empty sequence.
The loop of print_top_n_relations breaks only once the running index
exceeds the limit, so it emits limit plus one entries when available: a
one-relation map with limit 0 yields 1 entry, and a two-relation map with
limit 1 yields 2 entries. -/
theorem C9_top_n_off_by_one :
    (print_top_n_relations [(("100").data, [(("5").data, 1)])] 0).length = 1
    ∧ (print_top_n_relations
        [(("100").data, [(("5").data, 1)]),
         (("200").data, [(("7").data, 1)])] 1).length = 2 :=
  ⟨rfl, rfl⟩

/-- Claim C10 (confirmed): the total-relation and total-page counters are
equal in every reachable statistics state: they start at zero together,
every ingested line moves both by the same amount, the summary merge
moves both by the same amount whenever the merged input satisfies the
invariant, and every successful parse of an output text satisfies
n_relation = n_page. -/
theorem C10_relation_page_equal :
    init_xlog_stats.n_relation = init_xlog_stats.n_page
    ∧ (∀ (s : XlogStats) (l : List Char),
        (ingestLine s l).n_relation - s.n_relation
          = (ingestLine s l).n_page - s.n_page)
    ∧ (∀ a b : XlogStats, b.n_relation = b.n_page →
        (mergeStats a b).n_relation - a.n_relation
          = (mergeStats a b).n_page - a.n_page)
    ∧ (∀ (output : String) (t : XlogStats),
        parse_xlogdump_output output = Except.ok t →
        t.n_relation = t.n_page) := by
  refine ⟨rfl, ingestLine_rel_page_diff, ?_, ?_⟩
  · intro a b hb
    show (a.n_relation + b.n_relation) - a.n_relation
      = (a.n_page + b.n_page) - a.n_page
    omega
  · intro output t h
    unfold parse_xlogdump_output at h
    obtain ⟨h1, h2, -⟩ := finalizeStats_ok_fields _ t h
    have hd :=
      ingest_lines_rel_page_diff (splitNl output.data) init_xlog_stats
    have e1 : init_xlog_stats.n_relation = 0 := rfl
    have e2 : init_xlog_stats.n_page = 0 := rfl
    rw [e1, e2] at hd
    rw [h1, h2]
    omega

/-- Witness for claim C10: the merge conjunct at two initial statistics
values and the parse conjunct at the empty output text. -/
theorem C10_relation_page_equal_witness :
    (statsOf "").n_relation = (statsOf "").n_page
    ∧ (mergeStats init_xlog_stats init_xlog_stats).n_relation
        - init_xlog_stats.n_relation
      = (mergeStats init_xlog_stats init_xlog_stats).n_page
        - init_xlog_stats.n_page :=
  ⟨C10_relation_page_equal.2.2.2 "" (statsOf "") rfl,
   C10_relation_page_equal.2.2.1 init_xlog_stats init_xlog_stats rfl⟩
